import Mathlib

/-!
Verification of the `mern-server-setup` scaffolding generator.

The repository holds two near-identical variants of one generator script:
`src/index.js` (the "index" variant) and `src/unnamed/part_000` (the "full"
variant).  Both prompt for a folder name, create a directory tree, write
literal template files, rewrite the npm manifest, install dependencies and
launch the generated server.  This file embeds those behaviours shallowly:

* string-keyed maps (the filesystem and the JSON manifest) are association
  lists with JavaScript object/file semantics (`assocSet`, `assocGet`);
* the prompt collector, path resolution and directory scaffolding are pure
  functions translated from the source;
* the subprocess phase is a function from an oracle of subprocess exit
  statuses to the run outcome (steps attempted, process exit code, which
  messages were printed).
-/

namespace MernSetup

/-! ## Association-list maps

JavaScript objects and the on-disk file map are modelled as insertion-ordered
association lists.  `assocSet` is property assignment / `fs.writeFile`:
it replaces the value in place when the key exists and appends otherwise. -/

/-- Set key `k` to value `v`, replacing in place or appending at the end,
exactly as JavaScript property assignment and file overwriting behave. -/
def assocSet {α : Type} : List (String × α) → String → α → List (String × α)
  | [], k, v => [(k, v)]
  | (k₀, v₀) :: rest, k, v =>
    if k₀ = k then (k, v) :: rest else (k₀, v₀) :: assocSet rest k v

/-- Look up the value stored at key `k`, if any. -/
def assocGet {α : Type} : List (String × α) → String → Option α
  | [], _ => none
  | (k₀, v₀) :: rest, k => if k₀ = k then some v₀ else assocGet rest k

theorem assocGet_assocSet {α : Type} (m : List (String × α)) (k q : String) (v : α) :
    assocGet (assocSet m k v) q = if k = q then some v else assocGet m q := by
  induction m with
  | nil => simp [assocSet, assocGet]
  | cons hd t ih =>
    obtain ⟨k₀, v₀⟩ := hd
    by_cases h1 : k₀ = k
    · subst h1
      by_cases h2 : k₀ = q
      · subst h2
        simp [assocSet, assocGet]
      · simp [assocSet, assocGet, h2]
    · by_cases h2 : k = q
      · subst h2
        have h3 : k₀ ≠ k := h1
        simp [assocSet, h1, assocGet, h3, ih]
      · simp [assocSet, h1, assocGet, ih, h2]

/-- Two bindings of the same key in a map whose keys are pairwise distinct
carry the same value. -/
theorem assoc_mem_unique {α : Type} {l : List (String × α)} {p : String} {c₁ c₂ : α}
    (hnd : (l.map Prod.fst).Nodup) (h₁ : (p, c₁) ∈ l) (h₂ : (p, c₂) ∈ l) :
    c₁ = c₂ := by
  induction l with
  | nil => cases h₁
  | cons hd t ih =>
    obtain ⟨k₀, v₀⟩ := hd
    simp only [List.map_cons, List.nodup_cons] at hnd
    rcases List.mem_cons.mp h₁ with h₁' | h₁' <;>
      rcases List.mem_cons.mp h₂ with h₂' | h₂'
    · rw [Prod.mk.injEq] at h₁' h₂'
      rw [h₁'.2, h₂'.2]
    · injection h₁' with hp hv
      subst hp
      exact absurd (List.mem_map_of_mem Prod.fst h₂') hnd.1
    · injection h₂' with hp hv
      subst hp
      exact absurd (List.mem_map_of_mem Prod.fst h₁') hnd.1
    · exact ih hnd.2 h₁' h₂'

/-! ## Prompt collector (`getUserFolder`, both variants lines 14-26)

The source reads one line and resolves `answer.trim() || 'server'`.
`jsTrim` models `String.prototype.trim`: it removes leading and trailing
ECMAScript whitespace.  The `||` falls through to the default exactly when
the trimmed string is empty. -/

/-- Whitespace characters removed by JavaScript `String.prototype.trim`:
the full ECMAScript WhiteSpace set (tab, vertical tab, form feed, space,
no-break space, zero-width no-break space and every Space_Separator code
point: U+1680, U+2000 through U+200A, U+202F, U+205F, U+3000) together
with the LineTerminator set (LF, CR, U+2028, U+2029). -/
def isJsWhitespace (c : Char) : Bool :=
  c = ' ' || c = '\t' || c = '\n' || c = '\r' || c = '\x0b' || c = '\x0c' ||
  c = '\u00a0' || c = '\u1680' ||
  c = '\u2000' || c = '\u2001' || c = '\u2002' || c = '\u2003' || c = '\u2004' ||
  c = '\u2005' || c = '\u2006' || c = '\u2007' || c = '\u2008' || c = '\u2009' ||
  c = '\u200a' || c = '\u2028' || c = '\u2029' || c = '\u202f' || c = '\u205f' ||
  c = '\u3000' || c = '\ufeff'

/-- Model of JavaScript `answer.trim()`: drop leading and trailing whitespace. -/
def jsTrim (s : String) : String :=
  String.mk (((s.toList.dropWhile isJsWhitespace).reverse.dropWhile isJsWhitespace).reverse)

/-- Resolution of the prompt answer, from `resolve(answer.trim() || 'server')`
in `getUserFolder`: the trimmed answer, or the default when it is empty. -/
def getUserFolder (answer : String) : String :=
  if jsTrim answer = "" then "server" else jsTrim answer

/-! ## Target-directory resolution (`path.resolve(process.cwd(), userFolder)`,
src/index.js line 31 / part_000 line 32)

POSIX `path.resolve` with two arguments: when the second argument is
absolute it is used alone, otherwise it is joined onto the working
directory; the joined path is then normalised segment by segment. -/

/-- Whether a path is absolute, i.e. starts with the separator. -/
def startsWithSlash (p : String) : Bool :=
  match p.toList with
  | [] => false
  | c :: _ => c = '/'

/-- Split a character list at separators into raw segments. -/
def splitSegs : List Char → List (List Char)
  | [] => [[]]
  | c :: cs =>
    match splitSegs cs with
    | [] => [[]]
    | s :: rest => if c = '/' then [] :: s :: rest else (c :: s) :: rest

/-- Non-empty path segments of a string. -/
def pathSegs (s : String) : List String :=
  ((splitSegs s.toList).map fun l => String.mk l).filter (fun seg => seg ≠ "")

/-- Normalise segments the way `path.resolve` does: drop `.`, let `..`
remove the previous segment (or nothing at the root). -/
def normSegs (segs : List String) : List String :=
  segs.foldl
    (fun acc seg =>
      if seg = "." then acc
      else if seg = ".." then acc.dropLast
      else acc ++ [seg]) []

/-- Join normalised segments back into an absolute path. -/
def joinSegs : List String → String
  | [] => ""
  | [s] => s
  | s :: rest => s ++ "/" ++ joinSegs rest

/-- Model of `path.resolve(cwd, p)` for an absolute `cwd`: the source
computes the target directory as `path.resolve(process.cwd(), userFolder)`
with no validation of `userFolder` at all. -/
def resolvePath (cwd p : String) : String :=
  let joined := if startsWithSlash p then p else cwd ++ "/" ++ p
  "/" ++ joinSegs (normSegs (pathSegs joined))

/-! ## Directory scaffolding (src/index.js lines 34-39 / part_000 lines 35-42)

The directory store is the list of existing directory paths.
`fs.ensureDir` creates the directory when absent and succeeds otherwise;
`fs.mkdirSync(dir, recursive)` fails with `EEXIST` on an existing
directory unless `recursive` is set, which the source always sets. -/

/-- The six fixed subdirectory names, from the `folders` array. -/
def folders : List String := ["config", "controllers", "middlewares", "models", "routes", "utils"]

/-- Model of `fs.ensureDir`: create the directory when absent, succeed silently
when it already exists. -/
def ensureDir (dirs : List String) (d : String) : List String :=
  if d ∈ dirs then dirs else d :: dirs

/-- Model of `fs.mkdirSync` with its `recursive` option: on an existing
directory it errors (`none`) unless `recursive` is set. -/
def mkdirSync (recursive : Bool) (dirs : List String) (d : String) : Option (List String) :=
  if d ∈ dirs then (if recursive then some dirs else none) else some (d :: dirs)

/-- Run `fs.mkdirSync(·, recursive true)` over a list of directories,
stopping at the first error, as the `folders.forEach` loop does. -/
def mkdirAll (dirs : List String) : List String → Option (List String)
  | [] => some dirs
  | d :: ds =>
    match mkdirSync true dirs d with
    | some dirs' => mkdirAll dirs' ds
    | none => none

/-- The scaffolding phase of `createServerSetup`: ensure the base directory,
then `mkdirSync` each of the six subfolders with `recursive: true`. -/
def scaffoldDirs (dirs : List String) (baseDir : String) : Option (List String) :=
  mkdirAll (ensureDir dirs baseDir) (folders.map fun f => baseDir ++ "/" ++ f)

theorem mkdirSync_mem {dirs : List String} {d : String} (h : d ∈ dirs) :
    mkdirSync true dirs d = some dirs := by
  simp [mkdirSync, h]

theorem mkdirAll_total (ds : List String) : ∀ dirs : List String,
    ∃ dirs', mkdirAll dirs ds = some dirs' ∧ ∀ x, (x ∈ dirs' ↔ x ∈ ds ∨ x ∈ dirs) := by
  induction ds with
  | nil =>
    intro dirs
    exact ⟨dirs, rfl, by simp⟩
  | cons d ds ih =>
    intro dirs
    by_cases h : d ∈ dirs
    · obtain ⟨dirs', h1, h2⟩ := ih dirs
      refine ⟨dirs', ?_, ?_⟩
      · simp [mkdirAll, mkdirSync, h, h1]
      · intro x
        rw [h2 x]
        constructor
        · rintro (hx | hx) <;> simp [hx]
        · rintro (hx | hx)
          · rcases List.mem_cons.mp hx with rfl | hx'
            · exact Or.inr h
            · exact Or.inl hx'
          · exact Or.inr hx
    · obtain ⟨dirs', h1, h2⟩ := ih (d :: dirs)
      refine ⟨dirs', ?_, ?_⟩
      · simp [mkdirAll, mkdirSync, h, h1]
      · intro x
        rw [h2 x]
        simp [List.mem_cons, or_assoc]
        tauto

theorem mkdirAll_idem {ds dirs : List String} (h : ∀ d ∈ ds, d ∈ dirs) :
    mkdirAll dirs ds = some dirs := by
  induction ds with
  | nil => rfl
  | cons d ds ih =>
    have hd : d ∈ dirs := h d (List.mem_cons_self d ds)
    simp [mkdirAll, mkdirSync, hd]
    exact ih fun x hx => h x (List.mem_cons_of_mem d hx)

/-! ## Template emitter (src/index.js lines 42-153 / part_000 lines 46-612, 668-873)

Each template is a literal payload written with `fs.writeFile`.  The payload
strings below are the decoded JavaScript string/template literals of the
source (after the `.trim()` the index.js variant applies).  Exactly one
payload interpolates the chosen folder name: the part_000 README. -/

-- Template payloads of the index.js variant (src/index.js lines 42-153),
-- in write order, after the .trim() the source applies.
/-- Literal content written to `.env` by the index.js variant. -/
def tplIdxEnv : String := "PORT=5000\nMONGO_URI=mongodb://localhost:27017/mern_app\nJWT_SECRET=supersecretkey"

/-- Literal content written to `.gitignore` by the index.js variant. -/
def tplIdxGitignore : String := "node_modules\n.env"

/-- Literal content written to `config/db.js` by the index.js variant. -/
def tplIdxDb : String := "import mongoose from \x27mongoose\x27;\n\nconst connectDB = async () => \x7b\n    try \x7b\n        await mongoose.connect(process.env.MONGO_URI);\n        console.log(\x27MongoDB connected\x27);\n    \x7d catch (error) \x7b\n        console.error(\x27MongoDB connection failed:\x27, error);\n        process.exit(1);\n    \x7d\n\x7d;\n\nexport default connectDB;"

/-- Literal content written to `models/itemModel.js` by the index.js variant. -/
def tplIdxItemModel : String := "import mongoose from \x27mongoose\x27;\n\nconst itemSchema = new mongoose.Schema(\x7b\n    name: \x7b type: String, required: true \x7d,\n    quantity: \x7b type: Number, required: true \x7d,\n\x7d);\n\nexport default mongoose.model(\x27Item\x27, itemSchema);"

/-- Literal content written to `controllers/itemController.js` by the index.js variant. -/
def tplIdxItemController : String := "import Item from \x27../models/itemModel.js\x27;\n\nexport const createItem = async (req, res) => \x7b\n    try \x7b\n        const newItem = new Item(req.body);\n        await newItem.save();\n        res.status(201).json(newItem);\n    \x7d catch (error) \x7b\n        res.status(400).json(\x7b error: error.message \x7d);\n    \x7d\n\x7d;\n\nexport const getItems = async (req, res) => \x7b\n    try \x7b\n        const items = await Item.find();\n        res.json(items);\n    \x7d catch (error) \x7b\n        res.status(500).json(\x7b error: error.message \x7d);\n    \x7d\n\x7d;"

/-- Literal content written to `middlewares/authMiddleware.js` by the index.js variant. -/
def tplIdxAuthMiddleware : String := "import jwt from \x27jsonwebtoken\x27;\n\nconst authMiddleware = (req, res, next) => \x7b\n    const token = req.headers.authorization?.split(\x27 \x27)[1];\n    if (!token) return res.status(401).json(\x7b error: \x27No token provided\x27 \x7d);\n\n    jwt.verify(token, process.env.JWT_SECRET, (err, decoded) => \x7b\n        if (err) return res.status(401).json(\x7b error: \x27Invalid token\x27 \x7d);\n        req.user = decoded;\n        next();\n    \x7d);\n\x7d;\n\nexport default authMiddleware;"

/-- Literal content written to `routes/itemRoutes.js` by the index.js variant. -/
def tplIdxItemRoutes : String := "import express from \x27express\x27;\nimport \x7b createItem, getItems \x7d from \x27../controllers/itemController.js\x27;\n\nconst router = express.Router();\n\nrouter.post(\x27/\x27, createItem);\nrouter.get(\x27/\x27, getItems);\n\nexport default router;"

/-- Literal content written to `utils/generateToken.js` by the index.js variant. -/
def tplIdxGenerateToken : String := "import jwt from \x27jsonwebtoken\x27;\n\nexport function generateToken(payload) \x7b\n    return jwt.sign(payload, process.env.JWT_SECRET, \x7b expiresIn: \x271d\x27 \x7d);\n\x7d"

/-- Literal content written to `server.js` by the index.js variant. -/
def tplIdxServer : String := "import express from \x27express\x27;\nimport dotenv from \x27dotenv\x27;\nimport connectDB from \x27./config/db.js\x27;\nimport cors from \x27cors\x27;\nimport itemRoutes from \x27./routes/itemRoutes.js\x27;\n\ndotenv.config();\nconst app = express();\n\nconnectDB();\napp.use(cors());\napp.use(express.json());\napp.use(\x27/api/items\x27, itemRoutes);\n\napp.get(\x27/\x27, (req, res) => \x7b\n    res.json(\x7b message: \x27MERN Server is running!\x27 \x7d);\n\x7d);\n\nconst PORT = process.env.PORT || 5000;\napp.listen(PORT, () => console.log(\x60Server running on port $\x7bPORT\x7d\x60));"

-- Template payloads of the part_000 variant (lines 46-612 and the
-- README written at lines 668-873), in write order.
/-- Literal content written to `.env` by the part_000 variant. -/
def tplFullEnv : String := "PORT=5000\nMONGO_URI=mongodb://localhost:27017/mern_app\nJWT_SECRET=supersecretkey123456789\nJWT_EXPIRE=30d\nNODE_ENV=development"

/-- Literal content written to `.gitignore` by the part_000 variant. -/
def tplFullGitignore : String := "node_modules\n.env\n.DS_Store\ndist\nbuild\n*.log\ncoverage\n.nyc_output"

/-- Literal content written to `config/db.js` by the part_000 variant. -/
def tplFullDb : String := "import mongoose from \x27mongoose\x27;\n\nconst connectDB = async () => \x7b\n  try \x7b\n    const conn = await mongoose.connect(process.env.MONGO_URI)\n    console.log(\x60🍃 MongoDB Connected: $\x7bconn.connection.host\x7d\x60);\n  \x7d catch (error) \x7b\n    console.error(\x27❌ MongoDB connection failed:\x27, error.message);\n    process.exit(1);\n  \x7d\n\x7d;\n\nexport default connectDB;"

/-- Literal content written to `models/User.js` by the part_000 variant. -/
def tplFullUser : String := "import mongoose from \x27mongoose\x27;\nimport bcrypt from \x27bcryptjs\x27;\n\nconst userSchema = new mongoose.Schema(\x7b\n  name: \x7b\n    type: String,\n    required: [true, \x27Please add a name\x27],\n    trim: true,\n    maxlength: [50, \x27Name cannot be more than 50 characters\x27]\n  \x7d,\n  email: \x7b\n    type: String,\n    required: [true, \x27Please add an email\x27],\n    unique: true,\n    match: [\n      /^w+([.-]?w+)*@w+([.-]?w+)*(.w\x7b2,3\x7d)+$/,\n      \x27Please add a valid email\x27\n    ]\n  \x7d,\n  password: \x7b\n    type: String,\n    required: [true, \x27Please add a password\x27],\n    minlength: 6,\n    select: false\n  \x7d,\n  role: \x7b\n    type: String,\n    enum: [\x27user\x27, \x27admin\x27],\n    default: \x27user\x27\n  \x7d\n\x7d, \x7b\n  timestamps: true\n\x7d);\n\n// Hash password before saving\nuserSchema.pre(\x27save\x27, async function(next) \x7b\n  if (!this.isModified(\x27password\x27)) \x7b\n    next();\n  \x7d\n  const salt = await bcrypt.genSalt(10);\n  this.password = await bcrypt.hash(this.password, salt);\n\x7d);\n\n// Compare password method\nuserSchema.methods.comparePassword = async function(enteredPassword) \x7b\n  return await bcrypt.compare(enteredPassword, this.password);\n\x7d;\n\nexport default mongoose.model(\x27User\x27, userSchema);"

/-- Literal content written to `models/Item.js` by the part_000 variant. -/
def tplFullItem : String := "import mongoose from \x27mongoose\x27;\n\nconst itemSchema = new mongoose.Schema(\x7b\n  name: \x7b\n    type: String,\n    required: [true, \x27Please add a name\x27],\n    trim: true,\n    maxlength: [100, \x27Name cannot be more than 100 characters\x27]\n  \x7d,\n  description: \x7b\n    type: String,\n    maxlength: [500, \x27Description cannot be more than 500 characters\x27]\n  \x7d,\n  quantity: \x7b\n    type: Number,\n    required: [true, \x27Please add quantity\x27],\n    min: [0, \x27Quantity cannot be negative\x27]\n  \x7d,\n  price: \x7b\n    type: Number,\n    required: [true, \x27Please add price\x27],\n    min: [0, \x27Price cannot be negative\x27]\n  \x7d,\n  category: \x7b\n    type: String,\n    required: [true, \x27Please add a category\x27],\n    enum: [\x27electronics\x27, \x27clothing\x27, \x27books\x27, \x27home\x27, \x27sports\x27, \x27other\x27]\n  \x7d,\n  user: \x7b\n    type: mongoose.Schema.ObjectId,\n    ref: \x27User\x27,\n    required: true\n  \x7d\n\x7d, \x7b\n  timestamps: true\n\x7d);\n\nexport default mongoose.model(\x27Item\x27, itemSchema);"

/-- Literal content written to `controllers/authController.js` by the part_000 variant. -/
def tplFullAuthController : String := "import User from \x27../models/User.js\x27;\nimport \x7b generateToken \x7d from \x27../utils/generateToken.js\x27;\nimport asyncHandler from \x27../middlewares/asyncHandler.js\x27;\n\n// @desc    Register user\n// @route   POST /api/auth/register\n// @access  Public\nexport const register = asyncHandler(async (req, res) => \x7b\n  const \x7b name, email, password \x7d = req.body;\n\n  // Check if user exists\n  const userExists = await User.findOne(\x7b email \x7d);\n  if (userExists) \x7b\n    return res.status(400).json(\x7b\n      success: false,\n      message: \x27User already exists\x27\n    \x7d);\n  \x7d\n\n  // Create user\n  const user = await User.create(\x7b\n    name,\n    email,\n    password\n  \x7d);\n\n  if (user) \x7b\n    res.status(201).json(\x7b\n      success: true,\n      data: \x7b\n        _id: user._id,\n        name: user.name,\n        email: user.email,\n        role: user.role,\n        token: generateToken(user._id)\n      \x7d\n    \x7d);\n  \x7d else \x7b\n    res.status(400).json(\x7b\n      success: false,\n      message: \x27Invalid user data\x27\n    \x7d);\n  \x7d\n\x7d);\n\n// @desc    Login user\n// @route   POST /api/auth/login\n// @access  Public\nexport const login = asyncHandler(async (req, res) => \x7b\n  const \x7b email, password \x7d = req.body;\n\n  // Check for user\n  const user = await User.findOne(\x7b email \x7d).select(\x27+password\x27);\n\n  if (user && (await user.comparePassword(password))) \x7b\n    res.json(\x7b\n      success: true,\n      data: \x7b\n        _id: user._id,\n        name: user.name,\n        email: user.email,\n        role: user.role,\n        token: generateToken(user._id)\n      \x7d\n    \x7d);\n  \x7d else \x7b\n    res.status(401).json(\x7b\n      success: false,\n      message: \x27Invalid credentials\x27\n    \x7d);\n  \x7d\n\x7d);\n\n// @desc    Get current logged in user\n// @route   GET /api/auth/me\n// @access  Private\nexport const getMe = asyncHandler(async (req, res) => \x7b\n  const user = await User.findById(req.user.id);\n  res.json(\x7b\n    success: true,\n    data: user\n  \x7d);\n\x7d);"

/-- Literal content written to `controllers/itemController.js` by the part_000 variant. -/
def tplFullItemController : String := "import Item from \x27../models/Item.js\x27;\nimport asyncHandler from \x27../middlewares/asyncHandler.js\x27;\n\n// @desc    Get all items\n// @route   GET /api/items\n// @access  Private\nexport const getItems = asyncHandler(async (req, res) => \x7b\n  const items = await Item.find(\x7b user: req.user.id \x7d).populate(\x27user\x27, \x27name email\x27);\n  \n  res.json(\x7b\n    success: true,\n    count: items.length,\n    data: items\n  \x7d);\n\x7d);\n\n// @desc    Get single item\n// @route   GET /api/items/:id\n// @access  Private\nexport const getItem = asyncHandler(async (req, res) => \x7b\n  const item = await Item.findOne(\x7b _id: req.params.id, user: req.user.id \x7d);\n\n  if (!item) \x7b\n    return res.status(404).json(\x7b\n      success: false,\n      message: \x27Item not found\x27\n    \x7d);\n  \x7d\n\n  res.json(\x7b\n    success: true,\n    data: item\n  \x7d);\n\x7d);\n\n// @desc    Create new item\n// @route   POST /api/items\n// @access  Private\nexport const createItem = asyncHandler(async (req, res) => \x7b\n  req.body.user = req.user.id;\n  \n  const item = await Item.create(req.body);\n\n  res.status(201).json(\x7b\n    success: true,\n    data: item\n  \x7d);\n\x7d);\n\n// @desc    Update item\n// @route   PUT /api/items/:id\n// @access  Private\nexport const updateItem = asyncHandler(async (req, res) => \x7b\n  let item = await Item.findOne(\x7b _id: req.params.id, user: req.user.id \x7d);\n\n  if (!item) \x7b\n    return res.status(404).json(\x7b\n      success: false,\n      message: \x27Item not found\x27\n    \x7d);\n  \x7d\n\n  item = await Item.findByIdAndUpdate(req.params.id, req.body, \x7b\n    new: true,\n    runValidators: true\n  \x7d);\n\n  res.json(\x7b\n    success: true,\n    data: item\n  \x7d);\n\x7d);\n\n// @desc    Delete item\n// @route   DELETE /api/items/:id\n// @access  Private\nexport const deleteItem = asyncHandler(async (req, res) => \x7b\n  const item = await Item.findOne(\x7b _id: req.params.id, user: req.user.id \x7d);\n\n  if (!item) \x7b\n    return res.status(404).json(\x7b\n      success: false,\n      message: \x27Item not found\x27\n    \x7d);\n  \x7d\n\n  await Item.findByIdAndDelete(req.params.id);\n\n  res.json(\x7b\n    success: true,\n    data: \x7b\x7d\n  \x7d);\n\x7d);"

/-- Literal content written to `middlewares/authMiddleware.js` by the part_000 variant. -/
def tplFullAuthMiddleware : String := "import jwt from \x27jsonwebtoken\x27;\nimport User from \x27../models/User.js\x27;\nimport asyncHandler from \x27./asyncHandler.js\x27;\n\nconst protect = asyncHandler(async (req, res, next) => \x7b\n  let token;\n\n  if (req.headers.authorization && req.headers.authorization.startsWith(\x27Bearer\x27)) \x7b\n    token = req.headers.authorization.split(\x27 \x27)[1];\n  \x7d\n\n  if (!token) \x7b\n    return res.status(401).json(\x7b\n      success: false,\n      message: \x27Not authorized to access this route\x27\n    \x7d);\n  \x7d\n\n  try \x7b\n    const decoded = jwt.verify(token, process.env.JWT_SECRET);\n    req.user = await User.findById(decoded.id);\n    next();\n  \x7d catch (error) \x7b\n    return res.status(401).json(\x7b\n      success: false,\n      message: \x27Not authorized to access this route\x27\n    \x7d);\n  \x7d\n\x7d);\n\n// Grant access to specific roles\nconst authorize = (...roles) => \x7b\n  return (req, res, next) => \x7b\n    if (!roles.includes(req.user.role)) \x7b\n      return res.status(403).json(\x7b\n        success: false,\n        message: \x60User role $\x7breq.user.role\x7d is not authorized to access this route\x60\n      \x7d);\n    \x7d\n    next();\n  \x7d;\n\x7d;\n\nexport \x7b protect, authorize \x7d;"

/-- Literal content written to `middlewares/asyncHandler.js` by the part_000 variant. -/
def tplFullAsyncHandler : String := "const asyncHandler = (fn) => (req, res, next) =>\n  Promise.resolve(fn(req, res, next)).catch(next);\n\nexport default asyncHandler;"

/-- Literal content written to `middlewares/errorHandler.js` by the part_000 variant. -/
def tplFullErrorHandler : String := "const errorHandler = (err, req, res, next) => \x7b\n  let error = \x7b ...err \x7d;\n  error.message = err.message;\n\n  // Log to console for dev\n  console.log(err);\n\n  // Mongoose bad ObjectId\n  if (err.name === \x27CastError\x27) \x7b\n    const message = \x27Resource not found\x27;\n    error = \x7b message, statusCode: 404 \x7d;\n  \x7d\n\n  // Mongoose duplicate key\n  if (err.code === 11000) \x7b\n    const message = \x27Duplicate field value entered\x27;\n    error = \x7b message, statusCode: 400 \x7d;\n  \x7d\n\n  // Mongoose validation error\n  if (err.name === \x27ValidationError\x27) \x7b\n    const message = Object.values(err.errors).map(val => val.message);\n    error = \x7b message, statusCode: 400 \x7d;\n  \x7d\n\n  res.status(error.statusCode || 500).json(\x7b\n    success: false,\n    error: error.message || \x27Server Error\x27\n  \x7d);\n\x7d;\n\nexport default errorHandler;"

/-- Literal content written to `routes/auth.js` by the part_000 variant. -/
def tplFullAuthRoutes : String := "import express from \x27express\x27;\nimport \x7b register, login, getMe \x7d from \x27../controllers/authController.js\x27;\nimport \x7b protect \x7d from \x27../middlewares/authMiddleware.js\x27;\n\nconst router = express.Router();\n\nrouter.post(\x27/register\x27, register);\nrouter.post(\x27/login\x27, login);\nrouter.get(\x27/me\x27, protect, getMe);\n\nexport default router;"

/-- Literal content written to `routes/items.js` by the part_000 variant. -/
def tplFullItemsRoutes : String := "import express from \x27express\x27;\nimport \x7b\n  getItems,\n  getItem,\n  createItem,\n  updateItem,\n  deleteItem\n\x7d from \x27../controllers/itemController.js\x27;\nimport \x7b protect \x7d from \x27../middlewares/authMiddleware.js\x27;\n\nconst router = express.Router();\n\nrouter.use(protect); // Protect all routes\n\nrouter.route(\x27/\x27).get(getItems).post(createItem);\nrouter.route(\x27/:id\x27).get(getItem).put(updateItem).delete(deleteItem);\n\nexport default router;"

/-- Literal content written to `utils/generateToken.js` by the part_000 variant. -/
def tplFullGenerateToken : String := "import jwt from \x27jsonwebtoken\x27;\n\nexport const generateToken = (id) => \x7b\n  return jwt.sign(\x7b id \x7d, process.env.JWT_SECRET, \x7b\n    expiresIn: process.env.JWT_EXPIRE || \x2730d\x27\n  \x7d);\n\x7d;"

/-- Literal content written to `server.js` by the part_000 variant. -/
def tplFullServer : String := "import express from \x27express\x27;\nimport dotenv from \x27dotenv\x27;\nimport cors from \x27cors\x27;\nimport morgan from \x27morgan\x27;\nimport connectDB from \x27./config/db.js\x27;\nimport errorHandler from \x27./middlewares/errorHandler.js\x27;\n\n// Route files\nimport auth from \x27./routes/auth.js\x27;\nimport items from \x27./routes/items.js\x27;\n\n// Load env vars\ndotenv.config();\n\n// Connect to database\nconnectDB();\n\nconst app = express();\n\n// Body parser\napp.use(express.json(\x7b limit: \x2710mb\x27 \x7d));\napp.use(express.urlencoded(\x7b extended: false \x7d));\n\n// Enable CORS\napp.use(cors(\x7b\n  origin: process.env.CLIENT_URL || \x27http://localhost:3000\x27,\n  credentials: true\n\x7d));\n\n// Dev logging middleware\nif (process.env.NODE_ENV === \x27development\x27) \x7b\n  app.use(morgan(\x27combined\x27));\n\x7d\n\n// Mount routers\napp.use(\x27/api/auth\x27, auth);\napp.use(\x27/api/items\x27, items);\n\n// Health check route\napp.get(\x27/health\x27, (req, res) => \x7b\n  res.status(200).json(\x7b\n    success: true,\n    message: \x27MERN Server is running!\x27,\n    timestamp: new Date().toISOString(),\n    environment: process.env.NODE_ENV\n  \x7d);\n\x7d);\n\n// Root route\napp.get(\x27/\x27, (req, res) => \x7b\n  res.json(\x7b\n    message: \x27Welcome to MERN Backend API 🚀\x27,\n    version: \x271.0.0\x27,\n    endpoints: \x7b\n      auth: \x27/api/auth\x27,\n      items: \x27/api/items\x27,\n      health: \x27/health\x27\n    \x7d,\n    documentation: \x27See README.md for API documentation\x27\n  \x7d);\n\x7d);\n\n\n\n// Error handler\napp.use(errorHandler);\n\nconst PORT = process.env.PORT || 5000;\n\nconst server = app.listen(PORT, () => \x7b\n  console.log(\x60🚀 Server running in $\x7bprocess.env.NODE_ENV\x7d mode on port $\x7bPORT\x7d\x60);\n  console.log(\x60📍 API available at: http://localhost:$\x7bPORT\x7d\x60);\n  console.log(\x60🏥 Health check: http://localhost:$\x7bPORT\x7d/health\x60);\n\x7d);\n\n// Handle unhandled promise rejections\nprocess.on(\x27unhandledRejection\x27, (err, promise) => \x7b\n  console.log(\x60❌ Error: $\x7berr.message\x7d\x60);\n  // Close server & exit process\n  server.close(() => \x7b\n    process.exit(1);\n  \x7d);\n\x7d);\n\n// Handle SIGTERM\nprocess.on(\x27SIGTERM\x27, () => \x7b\n  console.log(\x27👋 SIGTERM received\x27);\n  server.close(() => \x7b\n    console.log(\x27Process terminated\x27);\n  \x7d);\n\x7d);"

/-- Text of the part_000 README before the single folder-name interpolation point. -/
def tplFullReadmePre : String := "# MERN Backend Server\n\nA complete MERN stack backend with JWT authentication and CRUD operations.\n\n## Features\n\n- ✅ **JWT Authentication** - Secure user registration and login\n- ✅ **User Management** - User registration, login, and profile\n- ✅ **Protected Routes** - Middleware-based authentication\n- ✅ **CRUD Operations** - Complete item management system\n- ✅ **Error Handling** - Comprehensive error middleware\n- ✅ **MongoDB Integration** - Mongoose ODM with validation\n- ✅ **ESM Modules** - Modern JavaScript module system\n- ✅ **Password Hashing** - bcryptjs for secure passwords\n- ✅ **Request Logging** - Morgan middleware for development\n- ✅ **CORS Support** - Cross-origin resource sharing\n\n## Quick Start\n\n1. **Install dependencies:**\n   \x60\x60\x60bash\n   npm install\n   \x60\x60\x60\n\n2. **Set up environment variables in \x60.env\x60:**\n   \x60\x60\x60\n   PORT=5000\n   MONGO_URI=mongodb://localhost:27017/mern_app\n   JWT_SECRET=your_jwt_secret_here\n   JWT_EXPIRE=30d\n   NODE_ENV=development\n   \x60\x60\x60\n\n3. **Start the server:**\n   \x60\x60\x60bash\n   npm run dev    # Development mode with nodemon\n   npm start      # Production mode\n   \x60\x60\x60\n\n## API Endpoints\n\n### Authentication Routes\n| Method | Endpoint | Description | Access |\n|--------|----------|-------------|---------|\n| POST | \x60/api/auth/register\x60 | Register a new user | Public |\n| POST | \x60/api/auth/login\x60 | Login user | Public |\n| GET | \x60/api/auth/me\x60 | Get current user | Private |\n\n### Item Management Routes\n| Method | Endpoint | Description | Access |\n|--------|----------|-------------|---------|\n| GET | \x60/api/items\x60 | Get all user items | Private |\n| POST | \x60/api/items\x60 | Create new item | Private |\n| GET | \x60/api/items/:id\x60 | Get single item | Private |\n| PUT | \x60/api/items/:id\x60 | Update item | Private |\n| DELETE | \x60/api/items/:id\x60 | Delete item | Private |\n\n### Health Check\n| Method | Endpoint | Description | Access |\n|--------|----------|-------------|---------|\n| GET | \x60/health\x60 | Server health check | Public |\n| GET | \x60/\x60 | API information | Public |\n\n## Request/Response Examples\n\n### Register User\n\x60\x60\x60bash\nPOST /api/auth/register\nContent-Type: application/json\n\n\x7b\n  \"name\": \"John Doe\",\n  \"email\": \"john@example.com\",\n  \"password\": \"password123\"\n\x7d\n\x60\x60\x60\n\n### Login User\n\x60\x60\x60bash\nPOST /api/auth/login\nContent-Type: application/json\n\n\x7b\n  \"email\": \"john@example.com\",\n  \"password\": \"password123\"\n\x7d\n\x60\x60\x60\n\n### Create Item (Protected)\n\x60\x60\x60bash\nPOST /api/items\nAuthorization: Bearer <your_jwt_token>\nContent-Type: application/json\n\n\x7b\n  \"name\": \"Laptop\",\n  \"description\": \"Gaming laptop\",\n  \"quantity\": 1,\n  \"price\": 1299.99,\n  \"category\": \"electronics\"\n\x7d\n\x60\x60\x60\n\n## Project Structure\n\n\x60\x60\x60\n"

/-- Text of the part_000 README after the single folder-name interpolation point. -/
def tplFullReadmePost : String := "/\n├── config/\n│   └── db.js              # Database connection\n├── controllers/\n│   ├── authController.js  # Authentication logic\n│   └── itemController.js  # Item CRUD operations\n├── middlewares/\n│   ├── authMiddleware.js  # JWT authentication\n│   ├── asyncHandler.js    # Async error handler\n│   └── errorHandler.js    # Global error handler\n├── models/\n│   ├── User.js           # User schema\n│   └── Item.js           # Item schema\n├── routes/\n│   ├── auth.js           # Authentication routes\n│   └── items.js          # Item routes\n├── utils/\n│   └── generateToken.js   # JWT token generation\n├── .env                  # Environment variables\n├── .gitignore           # Git ignore rules\n├── package.json         # Dependencies and scripts\n├── README.md           # Documentation\n└── server.js           # Application entry point\n\x60\x60\x60\n\n## Environment Variables\n\nCreate a \x60.env\x60 file in the root directory:\n\n\x60\x60\x60\nPORT=5000\nMONGO_URI=mongodb://localhost:27017/mern_app\nJWT_SECRET=your_super_secret_jwt_key_here\nJWT_EXPIRE=30d\nNODE_ENV=development\nCLIENT_URL=http://localhost:3000\n\x60\x60\x60\n\n## Available Scripts\n\n- \x60npm start\x60 - Start production server\n- \x60npm run dev\x60 - Start development server with nodemon\n- \x60npm test\x60 - Run tests (to be implemented)\n\n## MongoDB Setup\n\nMake sure MongoDB is running on your system:\n\n### Local MongoDB\n\x60\x60\x60bash\n# Install MongoDB Community Edition\n# Start MongoDB service\nmongod\n\x60\x60\x60\n\n### MongoDB Atlas (Cloud)\nReplace \x60MONGO_URI\x60 in \x60.env\x60 with your Atlas connection string:\n\x60\x60\x60\nMONGO_URI=mongodb+srv://<username>:<password>@cluster0.xxxxx.mongodb.net/mern_app\n\x60\x60\x60\n\n## Testing the API\n\nUse tools like Postman, Insomnia, or curl to test the API:\n\n\x60\x60\x60bash\n# Health check\ncurl http://localhost:5000/health\n\n# Register user\ncurl -X POST http://localhost:5000/api/auth/register \\\n  -H \"Content-Type: application/json\" \\\n  -d \x27\x7b\"name\":\"Test User\",\"email\":\"test@example.com\",\"password\":\"password123\"\x7d\x27\n\x60\x60\x60\n\n## Contributing\n\n1. Fork the repository\n2. Create a feature branch\n3. Commit your changes\n4. Push to the branch\n5. Create a Pull Request\n\n## License\n\nMIT License - feel free to use this project for learning and development.\n\n## Support\n\nIf you encounter any issues, please check:\n1. MongoDB is running\n2. Environment variables are set correctly\n3. All dependencies are installed\n4. Port 5000 is not in use by another application\n\nHappy coding! 🚀\n"

/-- The part_000 README with the folder name interpolated at its single
interpolation site (part_000 line 776). -/
def readmeFull (userFolder : String) : String :=
  tplFullReadmePre ++ userFolder ++ tplFullReadmePost

/-- The nine template writes of the index.js variant, in source order. -/
def templatesIdx : List (String × String) :=
  [(".env", tplIdxEnv),
   (".gitignore", tplIdxGitignore),
   ("config/db.js", tplIdxDb),
   ("models/itemModel.js", tplIdxItemModel),
   ("controllers/itemController.js", tplIdxItemController),
   ("middlewares/authMiddleware.js", tplIdxAuthMiddleware),
   ("routes/itemRoutes.js", tplIdxItemRoutes),
   ("utils/generateToken.js", tplIdxGenerateToken),
   ("server.js", tplIdxServer)]

/-- The fourteen template writes the part_000 variant performs before the
npm phase, in source order. -/
def templatesFullEarly : List (String × String) :=
  [(".env", tplFullEnv),
   (".gitignore", tplFullGitignore),
   ("config/db.js", tplFullDb),
   ("models/User.js", tplFullUser),
   ("models/Item.js", tplFullItem),
   ("controllers/authController.js", tplFullAuthController),
   ("controllers/itemController.js", tplFullItemController),
   ("middlewares/authMiddleware.js", tplFullAuthMiddleware),
   ("middlewares/asyncHandler.js", tplFullAsyncHandler),
   ("middlewares/errorHandler.js", tplFullErrorHandler),
   ("routes/auth.js", tplFullAuthRoutes),
   ("routes/items.js", tplFullItemsRoutes),
   ("utils/generateToken.js", tplFullGenerateToken),
   ("server.js", tplFullServer)]

/-- All template files of the part_000 variant, the README included (it is
written after the dependency installs, with the folder name interpolated). -/
def templatesFull (userFolder : String) : List (String × String) :=
  templatesFullEarly ++ [("README.md", readmeFull userFolder)]

/-- Apply a sequence of `fs.writeFile` operations, in order, to a file store. -/
def applyWrites (fs : List (String × String)) : List (String × String) → List (String × String)
  | [] => fs
  | (p, c) :: rest => applyWrites (assocSet fs p c) rest

/-- Every file write of a successful index.js-variant run, in order: the nine
templates, then `npm init -y` producing `package.json` (content `initPkg`,
chosen by the external initializer), then the manifest rewrite writing
`package.json` again. -/
def runWritesIdx (initPkg rewrittenPkg : String) : List (String × String) :=
  templatesIdx ++ [("package.json", initPkg), ("package.json", rewrittenPkg)]

/-- Every file write of a successful part_000-variant run, in order: the
fourteen templates, the two `package.json` writes, then the README. -/
def runWritesFull (userFolder initPkg rewrittenPkg : String) : List (String × String) :=
  templatesFullEarly ++
    [("package.json", initPkg), ("package.json", rewrittenPkg),
     ("README.md", readmeFull userFolder)]

/-! ## Manifest rewriter (src/index.js lines 158-174 / part_000 lines 617-638)

`npm init -y` produces `package.json` whose parsed form is an arbitrary
JSON object (an association list of fields).  The source then assigns a
fixed set of properties and serialises the object back.  The rewrite is
modelled on parsed objects; `JSON.parse` / `JSON.stringify` round-trip is
the identity on this representation. -/

/-- JSON values, as far as the manifest rewrite needs them. -/
inductive JVal where
  | jstr : String → JVal
  | jarr : List JVal → JVal
  | jobj : List (String × JVal) → JVal

/-- The script map the index.js variant assigns (src/index.js lines 167-170). -/
def scriptsIdx : JVal :=
  JVal.jobj [("start", JVal.jstr "node server.js"), ("dev", JVal.jstr "nodemon server.js")]

/-- The script map the part_000 variant assigns (part_000 lines 627-631):
`start`, `dev` and additionally `test`. -/
def scriptsFull : JVal :=
  JVal.jobj [("start", JVal.jstr "node server.js"), ("dev", JVal.jstr "nodemon server.js"),
    ("test", JVal.jstr "echo \"Error: no test specified\" && exit 1")]

/-- The manifest rewrite of the index.js variant: assign `type`, `scripts`,
`description` and `keywords` in source order, leaving everything else. -/
def rewritePackageJsonIdx (pkg : List (String × JVal)) : List (String × JVal) :=
  assocSet (assocSet (assocSet (assocSet pkg
    "type" (JVal.jstr "module"))
    "scripts" scriptsIdx)
    "description" (JVal.jstr "MERN backend server with ESM modules"))
    "keywords" (JVal.jarr [JVal.jstr "mern", JVal.jstr "express", JVal.jstr "mongodb",
      JVal.jstr "nodejs", JVal.jstr "backend"])

/-- The manifest rewrite of the part_000 variant: assign `type`, `scripts`,
`description`, `keywords`, `author`, `license` and `main` in source order. -/
def rewritePackageJsonFull (pkg : List (String × JVal)) : List (String × JVal) :=
  assocSet (assocSet (assocSet (assocSet (assocSet (assocSet (assocSet pkg
    "type" (JVal.jstr "module"))
    "scripts" scriptsFull)
    "description" (JVal.jstr "MERN backend server with JWT authentication and CRUD operations"))
    "keywords" (JVal.jarr [JVal.jstr "mern", JVal.jstr "express", JVal.jstr "mongodb",
      JVal.jstr "nodejs", JVal.jstr "backend", JVal.jstr "jwt", JVal.jstr "auth",
      JVal.jstr "api"]))
    "author" (JVal.jstr ""))
    "license" (JVal.jstr "MIT"))
    "main" (JVal.jstr "server.js")

/-- The fixed key set the rewrite may touch; only the part_000 variant
assigns the last three. -/
def rewrittenKeys : List String :=
  ["type", "scripts", "description", "keywords", "author", "license", "main"]

/-! ## Subprocess phase (src/index.js lines 155-202 / part_000 lines 614-903)

Each `execSync` call either succeeds or throws.  An `ExecEnv` oracle fixes
the status of every call a run can make; `execPhaseIdx` / `execPhaseFull`
mirror the control flow of the respective variant from `npm init -y`
onwards: which subprocesses get attempted, how thrown errors propagate
through the `try`/`catch` blocks and the top-level handler, the resulting
process exit code, and which of the diagnostic messages are printed. -/

/-- The subprocess invocations a run can attempt, in program order. -/
inductive Step where
  | npmInit
  | installDeps
  | installDev
  | ncuUpdate
  | reinstall
  | runDev
deriving DecidableEq

/-- Exit status oracle: `true` means the corresponding subprocess exits 0. -/
structure ExecEnv where
  npmInit : Bool
  installDeps : Bool
  installDev : Bool
  ncuUpdate : Bool
  reinstall : Bool
  runDev : Bool

/-- Outcome of the subprocess phase. -/
structure RunResult where
  attempted : List Step
  exitCode : Nat
  updateWarned : Bool
  restartMsgPrinted : Bool
  errorPrinted : Bool
deriving DecidableEq

/-- Subprocess phase of the index.js variant.  No `try`/`catch` surrounds the
mandatory installs or the launch; a thrown error rejects the promise and is
handled only by `createServerSetup().catch(console.error)` (line 202), which
prints the error and lets the process exit 0.  Only the update step
(lines 181-187) has its own `catch` printing a warning.  The restart
instructions (lines 194-197) are printed after a successful launch. -/
def execPhaseIdx (env : ExecEnv) : RunResult :=
  if !env.npmInit then
    ⟨[Step.npmInit], 0, false, false, true⟩
  else if !env.installDeps then
    ⟨[Step.npmInit, Step.installDeps], 0, false, false, true⟩
  else if !env.installDev then
    ⟨[Step.npmInit, Step.installDeps, Step.installDev], 0, false, false, true⟩
  else
    let updSteps := Step.ncuUpdate :: (if env.ncuUpdate then [Step.reinstall] else [])
    let warned := !(env.ncuUpdate && env.reinstall)
    let pre := [Step.npmInit, Step.installDeps, Step.installDev] ++ updSteps
    if !env.runDev then
      ⟨pre ++ [Step.runDev], 0, warned, false, true⟩
    else
      ⟨pre ++ [Step.runDev], 0, warned, true, false⟩

/-- Subprocess phase of the part_000 variant.  The whole body sits in a
`try` whose `catch` (lines 897-900) prints the error and calls
`process.exit(1)`; the update step (lines 659-665) and the launch
(lines 887-895) have inner `catch` blocks, the launch one printing the
manual restart instructions. -/
def execPhaseFull (env : ExecEnv) : RunResult :=
  if !env.npmInit then
    ⟨[Step.npmInit], 1, false, false, true⟩
  else if !env.installDeps then
    ⟨[Step.npmInit, Step.installDeps], 1, false, false, true⟩
  else if !env.installDev then
    ⟨[Step.npmInit, Step.installDeps, Step.installDev], 1, false, false, true⟩
  else
    let updSteps := Step.ncuUpdate :: (if env.ncuUpdate then [Step.reinstall] else [])
    let warned := !(env.ncuUpdate && env.reinstall)
    let pre := [Step.npmInit, Step.installDeps, Step.installDev] ++ updSteps
    if !env.runDev then
      ⟨pre ++ [Step.runDev], 0, warned, true, false⟩
    else
      ⟨pre ++ [Step.runDev], 0, warned, false, false⟩

/-! ## Claim theorems -/

/-- C6: for every line read at the interactive prompt, the resolved folder
name equals the input with leading and trailing whitespace removed when that
trimmed string is non-empty, and equals the literal "server" when the input
is empty or consists only of whitespace. -/
theorem c6_prompt_resolution (s : String) :
    (jsTrim s ≠ "" → getUserFolder s = jsTrim s) ∧
    (jsTrim s = "" → getUserFolder s = "server") ∧
    ((s = "" ∨ s.toList.all isJsWhitespace = true) → getUserFolder s = "server") := by
  refine ⟨fun h => by simp [getUserFolder, h], fun h => by simp [getUserFolder, h], ?_⟩
  rintro (rfl | h)
  · rfl
  · have hall : ∀ c ∈ s.toList, isJsWhitespace c := by
      intro c hc
      exact List.all_eq_true.mp h c hc
    have htrim : jsTrim s = "" := by
      have h0 : s.toList.dropWhile isJsWhitespace = [] :=
        List.dropWhile_eq_nil_iff.mpr hall
      unfold jsTrim
      rw [h0]
      rfl
    simp [getUserFolder, htrim]

/-- Witness for C6 at the spec scenario input "MyApp ", at blank inputs, and
at a lone ideographic space (U+3000), which `trim` also removes. -/
theorem c6_witness :
    getUserFolder "MyApp " = "MyApp" ∧
    getUserFolder "   " = "server" ∧
    getUserFolder "" = "server" ∧
    getUserFolder "\u3000" = "server" := by
  refine ⟨((c6_prompt_resolution "MyApp ").1 (by decide)).trans (by decide),
    (c6_prompt_resolution "   ").2.2 (Or.inr (by decide)),
    (c6_prompt_resolution "").2.2 (Or.inl rfl),
    (c6_prompt_resolution "\u3000").2.2 (Or.inr (by decide))⟩

/-- C10: the target directory is `path.resolve(cwd, input)` with no
validation or rejection: an absolute input is used verbatim (the working
directory is ignored), and an input containing separators produces a nested
path rather than an error. -/
theorem c10_target_resolution (cwd cwd' p : String) :
    (startsWithSlash p = true → resolvePath cwd p = resolvePath cwd' p) ∧
    resolvePath "/work" "apps/server" = "/work/apps/server" ∧
    resolvePath "/work" "/etc/config" = "/etc/config" ∧
    resolvePath "/work" "../sibling" = "/sibling" := by
  refine ⟨?_, by decide, by decide, by decide⟩
  intro h
  simp [resolvePath, h]

/-- Witness for C10: an absolute input resolves identically under two
different working directories. -/
theorem c10_witness :
    startsWithSlash "/etc/config" = true ∧
    resolvePath "/a" "/etc/config" = resolvePath "/b" "/etc/config" :=
  ⟨by decide, (c10_target_resolution "/a" "/b" "/etc/config").1 (by decide)⟩

/-- Membership in `ensureDir`. -/
theorem mem_ensureDir {dirs : List String} {d x : String} :
    x ∈ ensureDir dirs d ↔ x = d ∨ x ∈ dirs := by
  unfold ensureDir
  split
  · next h =>
    constructor
    · exact Or.inr
    · rintro (rfl | hx)
      · exact h
      · exact hx
  · simp [List.mem_cons]

/-- C9: the scaffolder creates the target directory and exactly the six
fixed subdirectories `config`, `controllers`, `middlewares`, `models`,
`routes`, `utils`, and every directory creation is idempotent: it succeeds
without error when the directory already exists, and re-running the
scaffold on its own output returns it unchanged. -/
theorem c9_scaffold (dirs₀ : List String) (base : String) :
    folders.length = 6 ∧
    folders = ["config", "controllers", "middlewares", "models", "routes", "utils"] ∧
    (∃ dirs₁, scaffoldDirs dirs₀ base = some dirs₁ ∧
      (∀ x, x ∈ dirs₁ ↔ x = base ∨ x ∈ folders.map (fun f => base ++ "/" ++ f) ∨ x ∈ dirs₀) ∧
      scaffoldDirs dirs₁ base = some dirs₁) ∧
    (∀ dirs d, d ∈ dirs → mkdirSync true dirs d = some dirs ∧ ensureDir dirs d = dirs) := by
  refine ⟨rfl, rfl, ?_, fun dirs d hd => ⟨mkdirSync_mem hd, by simp [ensureDir, hd]⟩⟩
  obtain ⟨dirs₁, h1, h2⟩ :=
    mkdirAll_total (folders.map fun f => base ++ "/" ++ f) (ensureDir dirs₀ base)
  refine ⟨dirs₁, h1, ?_, ?_⟩
  · intro x
    rw [h2 x, mem_ensureDir]
    tauto
  · have hbase : base ∈ dirs₁ := (h2 base).2 (Or.inr (mem_ensureDir.mpr (Or.inl rfl)))
    have hsub : ∀ d ∈ folders.map (fun f => base ++ "/" ++ f), d ∈ dirs₁ :=
      fun d hd => (h2 d).2 (Or.inl hd)
    unfold scaffoldDirs
    rw [show ensureDir dirs₁ base = dirs₁ from by simp [ensureDir, hbase]]
    exact mkdirAll_idem hsub

/-- Witness for C9: creating an already-existing directory succeeds and
changes nothing. -/
theorem c9_witness :
    mkdirSync true ["app"] "app" = some ["app"] ∧ ensureDir ["app"] "app" = ["app"] :=
  (c9_scaffold [] "app").2.2.2 ["app"] "app" (by decide)

/-- C7: for every path in the fixed template set, a successful run leaves
exactly the template's literal content at that path, whatever file was there
before: each template write replaces prior content rather than merging. -/
theorem c7_template_overwrite (fs₀ : List (String × String))
    (u initPkg newPkg p c : String) :
    ((p, c) ∈ templatesIdx →
      assocGet (applyWrites fs₀ (runWritesIdx initPkg newPkg)) p = some c) ∧
    ((p, c) ∈ templatesFull u →
      assocGet (applyWrites fs₀ (runWritesFull u initPkg newPkg)) p = some c) := by
  constructor
  · intro hmem
    fin_cases hmem <;>
      simp [applyWrites, runWritesIdx, templatesIdx, assocGet_assocSet]
  · intro hmem
    simp only [templatesFull, templatesFullEarly, List.cons_append, List.nil_append] at hmem
    fin_cases hmem <;>
      simp [applyWrites, runWritesFull, templatesFullEarly, assocGet_assocSet]

/-- Witness for C7: files pre-existing at `.env` and `README.md` are
overwritten with the template payloads. -/
theorem c7_witness :
    assocGet (applyWrites [(".env", "stale")] (runWritesIdx "P0" "P1")) ".env" =
      some tplIdxEnv ∧
    assocGet (applyWrites [("README.md", "stale")] (runWritesFull "app" "P0" "P1"))
        "README.md" = some (readmeFull "app") := by
  refine ⟨(c7_template_overwrite [(".env", "stale")] "app" "P0" "P1" ".env" tplIdxEnv).1 ?_,
    (c7_template_overwrite [("README.md", "stale")] "app" "P0" "P1" "README.md"
      (readmeFull "app")).2 ?_⟩
  · simp [templatesIdx]
  · simp [templatesFull]

/-- C8: the chosen folder name influences at most the README: for any two
folder-name inputs, every generated template file other than `README.md`
receives identical content (and the index.js variant, which writes no
README, interpolates the name into no file at all). -/
theorem c8_folder_name_isolation (u₁ u₂ p : String) (c₁ c₂ : String) :
    (p ≠ "README.md" →
      (p, c₁) ∈ templatesFull u₁ → (p, c₂) ∈ templatesFull u₂ → c₁ = c₂) ∧
    ((p, c₁) ∈ templatesIdx → (p, c₂) ∈ templatesIdx → c₁ = c₂) := by
  constructor
  · intro hne h₁ h₂
    simp only [templatesFull] at h₁ h₂
    rcases List.mem_append.mp h₁ with h₁' | h₁'
    · rcases List.mem_append.mp h₂ with h₂' | h₂'
      · exact assoc_mem_unique (by decide) h₁' h₂'
      · simp only [List.mem_singleton, Prod.mk.injEq] at h₂'
        exact absurd h₂'.1 hne
    · simp only [List.mem_singleton, Prod.mk.injEq] at h₁'
      exact absurd h₁'.1 hne
  · intro h₁ h₂
    exact assoc_mem_unique (by decide) h₁ h₂

/-- Witness for C8: the `server.js` payload written under two different
folder names is the same in both variants. -/
theorem c8_witness : tplFullServer = tplFullServer ∧ tplIdxServer = tplIdxServer := by
  refine ⟨(c8_folder_name_isolation "alpha" "beta" "server.js" tplFullServer tplFullServer).1
      (by decide) ?_ ?_,
    (c8_folder_name_isolation "alpha" "beta" "server.js" tplIdxServer tplIdxServer).2 ?_ ?_⟩
  · simp [templatesFull, templatesFullEarly]
  · simp [templatesFull, templatesFullEarly]
  · simp [templatesIdx]
  · simp [templatesIdx]

/-- C2 (amended): in both variants the rewritten manifest, parsed back, has
`type` equal to "module"; in the index.js variant the scripts map is exactly
`start ↦ node server.js`, `dev ↦ nodemon server.js`; in the part_000
variant the scripts map holds those two entries plus a third entry
`test ↦ echo "Error: no test specified" && exit 1`. -/
theorem c2_manifest_rewrite (pkg : List (String × JVal)) :
    assocGet (rewritePackageJsonIdx pkg) "type" = some (JVal.jstr "module") ∧
    assocGet (rewritePackageJsonIdx pkg) "scripts" =
      some (JVal.jobj [("start", JVal.jstr "node server.js"),
        ("dev", JVal.jstr "nodemon server.js")]) ∧
    assocGet (rewritePackageJsonFull pkg) "type" = some (JVal.jstr "module") ∧
    assocGet (rewritePackageJsonFull pkg) "scripts" =
      some (JVal.jobj [("start", JVal.jstr "node server.js"),
        ("dev", JVal.jstr "nodemon server.js"),
        ("test", JVal.jstr "echo \"Error: no test specified\" && exit 1")]) := by
  refine ⟨?_, ?_, ?_, ?_⟩ <;>
    simp [rewritePackageJsonIdx, rewritePackageJsonFull, assocGet_assocSet,
      scriptsIdx, scriptsFull]

/-- C2 counterexample: on a manifest as produced by `npm init -y`, the
part_000 rewrite leaves a scripts map that is not exactly the two documented
entries — it also carries the `test` script. -/
theorem c2_counterexample :
    assocGet (rewritePackageJsonFull
        [("name", JVal.jstr "server"), ("version", JVal.jstr "1.0.0")]) "scripts" ≠
      some (JVal.jobj [("start", JVal.jstr "node server.js"),
        ("dev", JVal.jstr "nodemon server.js")]) := by
  intro h
  rw [show assocGet (rewritePackageJsonFull
      [("name", JVal.jstr "server"), ("version", JVal.jstr "1.0.0")]) "scripts" =
      some scriptsFull from rfl] at h
  simp [scriptsFull] at h

/-- C3: the manifest rewrite modifies only the fixed key set (`type`,
`scripts`, `description`, `keywords`, `author`, `license`, `main`); every
other key of the initializer-produced manifest keeps its value unchanged in
both variants. -/
theorem c3_manifest_frame (pkg : List (String × JVal)) (k : String)
    (h : k ∉ rewrittenKeys) :
    assocGet (rewritePackageJsonIdx pkg) k = assocGet pkg k ∧
    assocGet (rewritePackageJsonFull pkg) k = assocGet pkg k := by
  simp only [rewrittenKeys, List.mem_cons, List.not_mem_nil, or_false, not_or] at h
  obtain ⟨h1, h2, h3, h4, h5, h6, h7⟩ := h
  constructor <;>
    simp [rewritePackageJsonIdx, rewritePackageJsonFull, assocGet_assocSet,
      Ne.symm h1, Ne.symm h2, Ne.symm h3, Ne.symm h4, Ne.symm h5, Ne.symm h6, Ne.symm h7]

/-- Witness for C3: the initializer-generated `name` field survives both
rewrites unchanged. -/
theorem c3_witness :
    assocGet (rewritePackageJsonIdx [("name", JVal.jstr "demo")]) "name" =
      some (JVal.jstr "demo") ∧
    assocGet (rewritePackageJsonFull [("name", JVal.jstr "demo")]) "name" =
      some (JVal.jstr "demo") := by
  have h := c3_manifest_frame [("name", JVal.jstr "demo")] "name" (by decide)
  exact ⟨h.1.trans rfl, h.2.trans rfl⟩

/-- C1 (amended): when a mandatory dependency-install subprocess reports a
non-zero exit status, neither the optional update step nor the server-launch
step is attempted and an error message is printed, in both variants; the
part_000 variant terminates with exit code 1, while the index.js variant
has no try/catch around the installs — the rejected promise reaches
`createServerSetup().catch(console.error)` and the process exits 0. -/
theorem c1_mandatory_install_failure (env : ExecEnv)
    (hInit : env.npmInit = true)
    (hFail : env.installDeps = false ∨ env.installDev = false) :
    (execPhaseFull env).exitCode = 1 ∧
    (execPhaseIdx env).exitCode = 0 ∧
    Step.ncuUpdate ∉ (execPhaseFull env).attempted ∧
    Step.runDev ∉ (execPhaseFull env).attempted ∧
    Step.ncuUpdate ∉ (execPhaseIdx env).attempted ∧
    Step.runDev ∉ (execPhaseIdx env).attempted ∧
    (execPhaseFull env).errorPrinted = true ∧
    (execPhaseIdx env).errorPrinted = true := by
  obtain ⟨a, b, c, d, e, f⟩ := env
  dsimp only at hInit hFail
  subst hInit
  rcases hFail with hb | hc
  · subst hb
    cases c <;> cases d <;> cases e <;> cases f <;> decide
  · subst hc
    cases b <;> cases d <;> cases e <;> cases f <;> decide

/-- C1 counterexample: with `npm init` succeeding and the runtime-dependency
install failing, the index.js variant stops after the failed install but the
process exit code is 0, not the claimed 1. -/
theorem c1_counterexample :
    (execPhaseIdx ⟨true, false, true, true, true, true⟩).attempted =
      [Step.npmInit, Step.installDeps] ∧
    (execPhaseIdx ⟨true, false, true, true, true, true⟩).exitCode = 0 := by
  decide

/-- Witness for C1 at a run whose runtime-dependency install fails. -/
theorem c1_witness :
    (execPhaseFull ⟨true, false, true, true, true, true⟩).exitCode = 1 ∧
    (execPhaseIdx ⟨true, false, true, true, true, true⟩).exitCode = 0 ∧
    Step.runDev ∉ (execPhaseFull ⟨true, false, true, true, true, true⟩).attempted := by
  have h := c1_mandatory_install_failure ⟨true, false, true, true, true, true⟩ rfl (Or.inl rfl)
  exact ⟨h.1, h.2.1, h.2.2.2.1⟩

/-- C4 (amended): when the final launch subprocess exits non-zero or is
interrupted after a fully successful setup, neither variant propagates the
error and both exit 0; the part_000 variant catches it and prints the manual
restart instructions, while the index.js variant has no catch around the
launch — the error reaches only the top-level `console.error` handler and no
restart instructions are printed. -/
theorem c4_launch_failure (env : ExecEnv)
    (h1 : env.npmInit = true) (h2 : env.installDeps = true)
    (h3 : env.installDev = true) (hRun : env.runDev = false) :
    (execPhaseFull env).exitCode = 0 ∧
    (execPhaseFull env).restartMsgPrinted = true ∧
    (execPhaseIdx env).exitCode = 0 ∧
    (execPhaseIdx env).restartMsgPrinted = false ∧
    (execPhaseIdx env).errorPrinted = true := by
  obtain ⟨a, b, c, d, e, f⟩ := env
  dsimp only at h1 h2 h3 hRun
  subst h1
  subst h2
  subst h3
  subst hRun
  cases d <;> cases e <;> decide

/-- C4 counterexample: in the index.js variant a failing launch leaves the
run without the promised restart-instructions message (the error is printed
by the top-level handler instead). -/
theorem c4_counterexample :
    (execPhaseIdx ⟨true, true, true, true, true, false⟩).restartMsgPrinted = false ∧
    Step.runDev ∈ (execPhaseIdx ⟨true, true, true, true, true, false⟩).attempted := by
  decide

/-- Witness for C4 at a run whose launch fails after a successful setup. -/
theorem c4_witness :
    (execPhaseFull ⟨true, true, true, true, true, false⟩).exitCode = 0 ∧
    (execPhaseFull ⟨true, true, true, true, true, false⟩).restartMsgPrinted = true := by
  have h := c4_launch_failure ⟨true, true, true, true, true, false⟩ rfl rfl rfl rfl
  exact ⟨h.1, h.2.1⟩

/-- C5: when only the optional update step (the `npx npm-check-updates -u`
invocation or the `npm install` that follows it) fails, the failure is
caught and logged as a warning, the server launch is still attempted, and
the exit code equals that of the same run with the update succeeding, in
both variants. -/
theorem c5_optional_update_failure (env : ExecEnv)
    (h1 : env.npmInit = true) (h2 : env.installDeps = true) (h3 : env.installDev = true)
    (hUpd : env.ncuUpdate = false ∨ env.reinstall = false) :
    Step.runDev ∈ (execPhaseFull env).attempted ∧
    Step.runDev ∈ (execPhaseIdx env).attempted ∧
    (execPhaseFull env).updateWarned = true ∧
    (execPhaseIdx env).updateWarned = true ∧
    (execPhaseFull env).exitCode =
      (execPhaseFull ⟨env.npmInit, env.installDeps, env.installDev, true, true,
        env.runDev⟩).exitCode ∧
    (execPhaseIdx env).exitCode =
      (execPhaseIdx ⟨env.npmInit, env.installDeps, env.installDev, true, true,
        env.runDev⟩).exitCode := by
  obtain ⟨a, b, c, d, e, f⟩ := env
  dsimp only at h1 h2 h3 hUpd ⊢
  subst h1
  subst h2
  subst h3
  rcases hUpd with h | h
  · subst h
    cases e <;> cases f <;> decide
  · subst h
    cases d <;> cases f <;> decide

/-- Witness for C5 at a run whose update check fails but whose launch runs. -/
theorem c5_witness :
    Step.runDev ∈ (execPhaseFull ⟨true, true, true, false, true, true⟩).attempted ∧
    (execPhaseFull ⟨true, true, true, false, true, true⟩).updateWarned = true ∧
    (execPhaseFull ⟨true, true, true, false, true, true⟩).exitCode =
      (execPhaseFull ⟨true, true, true, true, true, true⟩).exitCode := by
  have h := c5_optional_update_failure ⟨true, true, true, false, true, true⟩ rfl rfl rfl
    (Or.inl rfl)
  exact ⟨h.1, h.2.2.1, h.2.2.2.2.1⟩

end MernSetup
